import Mathlib

/-!
Verification of the `account` financial-data ingestion module described by the
repository's specification and exercised by its test suite
(`src/test-project/hello.py`).  The module itself ships no source in this
repository — only its tests do — so every operation below is modelled from the
specification's words and checked against the behaviours the tests pin down.
-/

/- ## Basic string parsing helpers -/

/-- Numeric value of a decimal digit character. -/
def digitVal (c : Char) : Nat := c.toNat - 48

/-- Parse a non-empty all-digit character list as a natural number. -/
def parseNatDigits (cs : List Char) : Option Nat :=
  if cs ≠ [] ∧ cs.all Char.isDigit then
    some (cs.foldl (fun a c => 10 * a + digitVal c) 0)
  else none

/-- Parse a fractional digit string (the part after the decimal point) as a
rational in `[0, 1)`. -/
def parseFracDigits (cs : List Char) : Option ℚ :=
  (parseNatDigits cs).map (fun n => (n : ℚ) / ((10 : ℚ) ^ cs.length))

/-- Split a character list at its decimal point: the digits before the point
and, when a point is present, those after it; `none` when there is more than
one point. -/
def splitDot : List Char → Option (List Char × Option (List Char))
  | [] => some ([], none)
  | c :: cs =>
    if c = '.' then
      if cs.contains '.' then none else some ([], some cs)
    else (splitDot cs).map (fun r => (c :: r.1, r.2))

/-- Parse an unsigned decimal literal, with an optional fractional part, as a
rational number. -/
def parseUnsigned (cs : List Char) : Option ℚ :=
  match splitDot cs with
  | none => none
  | some (ip, none) => (parseNatDigits ip).map (fun n => (n : ℚ))
  | some (ip, some fp) =>
    match parseNatDigits ip, parseFracDigits fp with
    | some n, some f => some ((n : ℚ) + f)
    | _, _ => none

/-- Modelled from the spec: coercion of a `rate` cell "to a floating-point
number".  Real rates are modelled exactly as rationals; a string parses when it
is an optionally signed decimal literal, and fails (`none`) otherwise. -/
def parseDecimal (s : String) : Option ℚ :=
  match s.data with
  | [] => none
  | c :: cs =>
    if c = '-' then (parseUnsigned cs).map (fun q => -q)
    else if c = '+' then parseUnsigned cs
    else parseUnsigned (c :: cs)

/-- Parse an optionally negated all-digit string as an integer. -/
def parseIntStr (s : String) : Option Int :=
  match s.data with
  | [] => none
  | c :: cs =>
    if c = '-' then (parseNatDigits cs).map (fun n => -(n : Int))
    else (parseNatDigits (c :: cs)).map (fun n => (n : Int))

/- ## Tabular data -/

/-- A delimited tabular file after reading: a header row naming the columns and
data rows of string cells, cell `i` of a row belonging to header column `i`.
This models both the CSV input of the reference-rate processor and the tabular
data handed to the data-store collaborator. -/
structure DataFrame where
  header : List String
  rows : List (List String)
deriving DecidableEq, Repr

/-- A dataframe is empty when it has no data rows (`pandas` `DataFrame.empty`).  -/
def DataFrame.isEmpty (df : DataFrame) : Bool := df.rows.isEmpty

/-- The position of column `col` in a header, `none` when absent. -/
def colIndex (col : String) : List String → Option Nat
  | [] => none
  | c :: cs => if c = col then some 0 else (colIndex col cs).map (fun i => i + 1)

/-- The cell of `row` under column `col`, when the column exists and the row is
long enough. -/
def DataFrame.getValue (df : DataFrame) (row : List String) (col : String) :
    Option String :=
  (colIndex col df.header).bind (fun i => row.get? i)

/- ## Reference-rate processor -/

/-- Modelled from the spec: `RequiredColumns = {name, date, code1, term, code2,
rate}`. -/
def requiredColumns : List String :=
  ["name", "date", "code1", "term", "code2", "rate"]

/-- Whether a file's header supplies every required column. -/
def hasRequiredColumns (df : DataFrame) : Bool :=
  requiredColumns.all (fun c => df.header.contains c)

/-- Errors of the reference-rate processor: a schema error for missing columns
and a value error for unparsable cells. -/
inductive ProcError where
  | schemaError (msg : String)
  | valueError (msg : String)
deriving DecidableEq, Repr

/-- Modelled from the spec: one validated input row — instrument `name`,
integer tenor `term`, numeric `rate`.  The `date`, `code1` and `code2` fields
play no role in the processed series and are not retained. -/
structure RawRecord where
  name : String
  term : Int
  rate : ℚ
deriving DecidableEq, Repr

/-- Validate one data row: its `name` cell must be present, its `term` cell an
integer, its `rate` cell a decimal number. -/
def parseRow (df : DataFrame) (row : List String) : Option RawRecord :=
  match df.getValue row "name", (df.getValue row "term").bind parseIntStr,
      (df.getValue row "rate").bind parseDecimal with
  | some n, some t, some r => some ⟨n, t, r⟩
  | _, _, _ => none

/-- Validate every data row, failing with a value error on the first row that
does not parse (no partial success). -/
def parseRowsAux (df : DataFrame) : List (List String) →
    Except ProcError (List RawRecord)
  | [] => .ok []
  | r :: rs =>
    match parseRow df r with
    | none => .error (.valueError "could not convert string to float")
    | some rec =>
      match parseRowsAux df rs with
      | .error e => .error e
      | .ok recs => .ok (rec :: recs)

/-- The distinct instrument names of a record list, one entry per name. -/
def uniqueNames : List RawRecord → List String
  | [] => []
  | r :: rs =>
    let ns := uniqueNames rs
    if r.name ∈ ns then ns else r.name :: ns

/-- The (term, rate) pairs of the records for instrument `n`. -/
def recordsFor (n : String) (recs : List RawRecord) : List (Int × ℚ) :=
  (recs.filter (fun r => r.name = n)).map (fun r => (r.term, r.rate))

/-- Insert a (term, rate) pair into a term-sorted list. -/
def insertByTerm (p : Int × ℚ) : List (Int × ℚ) → List (Int × ℚ)
  | [] => [p]
  | q :: qs => if p.1 ≤ q.1 then p :: q :: qs else q :: insertByTerm p qs

/-- Sort (term, rate) pairs by term ascending. -/
def sortByTerm (l : List (Int × ℚ)) : List (Int × ℚ) :=
  l.foldr insertByTerm []

/-- The linearly interpolated points at every integer term in `[t0, t1)`,
anchored at `(t0, r0)` and `(t1, r1)`: a known term keeps its given value and
each gap term gets the linear weighting between the two bracketing terms. -/
def segmentPoints (t0 : Int) (r0 : ℚ) (t1 : Int) (r1 : ℚ) : List (Int × ℚ) :=
  (List.range (t1 - t0).toNat).map
    (fun k => (t0 + (k : Int), r0 + (r1 - r0) * (k : ℚ) / ((t1 : ℚ) - (t0 : ℚ))))

/-- Modelled from the spec: fill every gap of a term-sorted series by linear
interpolation between the two bracketing known terms, keeping the given value
at a term that is already present. -/
def interpPoints : List (Int × ℚ) → List (Int × ℚ)
  | [] => []
  | [p] => [p]
  | p0 :: p1 :: rest =>
    segmentPoints p0.1 p0.2 p1.1 p1.2 ++ interpPoints (p1 :: rest)

/-- Group validated records by instrument name; within each group sort by term
and interpolate the gaps. -/
def processRecords (recs : List RawRecord) : List (String × List (Int × ℚ)) :=
  (uniqueNames recs).map (fun n => (n, interpPoints (sortByTerm (recordsFor n recs))))

/-- Modelled from the spec: `SaveData._process_reference_data`, taken at the
already-read tabular file (the tests stub the CSV read).  The file must supply
all required columns, else a schema error "Missing required columns"; every
row's `rate` must parse as a number, else a value error aborting the whole
file; the result groups rows by `name`, sorts by `term` and linearly
interpolates the gaps. -/
def process_reference_data (df : DataFrame) :
    Except ProcError (List (String × List (Int × ℚ))) :=
  if hasRequiredColumns df then
    match parseRowsAux df df.rows with
    | .error e => .error e
    | .ok recs => .ok (processRecords recs)
  else .error (.schemaError "Missing required columns")

/-- The rate at term `t` in a (term, rate) series, `none` when absent. -/
def lookupRate (t : Int) : List (Int × ℚ) → Option ℚ
  | [] => none
  | p :: ps => if p.1 = t then some p.2 else lookupRate t ps

/-- The series of instrument `n` in a processed result, `none` when absent. -/
def lookupSeries (n : String) : List (String × List (Int × ℚ)) →
    Option (List (Int × ℚ))
  | [] => none
  | s :: ss => if s.1 = n then some s.2 else lookupSeries n ss

/-- The processed rate of instrument `n` at term `t` in a result series. -/
def seriesRate (res : List (String × List (Int × ℚ))) (n : String) (t : Int) :
    Option ℚ :=
  (lookupSeries n res).bind (fun pts => lookupRate t pts)

/-- The processed rate of instrument `n` at term `t` for an input file, `none`
when processing fails or the point is absent. -/
def processedRate (df : DataFrame) (n : String) (t : Int) : Option ℚ :=
  match process_reference_data df with
  | .ok res => seriesRate res n t
  | .error _ => none

/-- Whether a data row's `rate` cell is coercible to a number: the cell exists
and parses as a decimal. -/
def rateCoercible (df : DataFrame) (row : List String) : Bool :=
  ((df.getValue row "rate").bind parseDecimal).isSome

/- ## Data-store access (`SaveData.save` / `SaveData.load`) -/

/-- A call observed at the data-store client. -/
inductive StoreCall where
  | save_dataframe (df : DataFrame) (table mode : String)
  | query (sql : String)
deriving DecidableEq, Repr

/-- Modelled from the spec: the database client instance, exposing
`save_dataframe` and `query`.  Either call may fail with an error, modelled as
its message string. -/
structure DBInstance where
  save_dataframe : DataFrame → String → String → Except String Unit
  query : String → Except String DataFrame

/-- Modelled from the spec: the singleton-accessed `DB` collaborator;
acquiring the instance itself may fail. -/
structure DB where
  get_instance : Except String DBInstance

/-- Modelled from the spec: `SaveData.save(df, table, mode)`.  Saving an empty
dataframe is silently skipped (no store call, no error); otherwise the store
instance is acquired and `save_dataframe` invoked, errors propagating
unmodified.  The returned list records the store calls made. -/
def SaveData.save (db : DB) (df : DataFrame) (table mode : String) :
    Except String Unit × List StoreCall :=
  if df.isEmpty then (.ok (), [])
  else
    match db.get_instance with
    | .error e => (.error e, [])
    | .ok inst => (inst.save_dataframe df table mode, [.save_dataframe df table mode])

/-- Modelled from the spec: `SaveData.load(sql)` — acquire the store instance
and pass the SQL text to `query`, returning its tabular result unchanged;
errors propagate unmodified.  The returned list records the store calls made. -/
def SaveData.load (db : DB) (sql : String) :
    Except String DataFrame × List StoreCall :=
  match db.get_instance with
  | .error e => (.error e, [])
  | .ok inst => (inst.query sql, [.query sql])

/- ## Config loader -/

/-- The filesystem as the config loader sees it: which paths exist, and the
parsed YAML mapping of each readable file. -/
structure FileSystem where
  pathExists : String → Bool
  files : String → Option (List (String × String))

/-- Modelled from the spec: the config file resolves to `<path>/static.yml`
when a path argument is given and exists, and to `/static.yml` otherwise. -/
def resolveConfigPath (fs : FileSystem) (path : Option String) : String :=
  match path with
  | some p => if fs.pathExists p then p ++ "/static.yml" else "/static.yml"
  | none => "/static.yml"

/-- Modelled from the spec: `get_config(path?)` reads the YAML mapping at the
resolved config file, failing with `FileNotFoundError` when that file does not
exist. -/
def get_config (fs : FileSystem) (path : Option String) :
    Except String (List (String × String)) :=
  match fs.files (resolveConfigPath fs path) with
  | some cfg => .ok cfg
  | none => .error "FileNotFoundError"

/- ## Model runner -/

/-- Modelled from the spec: the recognized country names; the spec and tests
name `Canada` as the one recognized country. -/
def validCountries : List String := ["Canada"]

/-- Split a character list at every dash. -/
def splitDash : List Char → List (List Char)
  | [] => [[]]
  | c :: cs =>
    if c = '-' then [] :: splitDash cs
    else
      match splitDash cs with
      | [] => [[c]]
      | g :: gs => (c :: g) :: gs

/-- Modelled from the spec: parsing an evaluation-date string of the
`YYYY-MM-DD` form into (year, month, day); any other string is unparsable. -/
def parseDateStr (s : String) : Option (Nat × Nat × Nat) :=
  match splitDash s.data with
  | [y, m, d] =>
    match parseNatDigits y, parseNatDigits m, parseNatDigits d with
    | some yn, some mn, some dn =>
      if 1 ≤ mn ∧ mn ≤ 12 ∧ 1 ≤ dn ∧ dn ≤ 31 then some (yn, mn, dn) else none
    | _, _, _ => none
  | _ => none

/-- Modelled from the spec: `run_model(country, evaluation_date)` fails with
"Invalid country name" for an unrecognized country and with "Invalid date
format" for an unparsable date string, and otherwise dispatches (modelled as
plain success, the model itself being out of scope). -/
def run_model (country dateStr : String) : Except String Unit :=
  if validCountries.contains country then
    match parseDateStr dateStr with
    | none => .error "Invalid date format"
    | some _ => .ok ()
  else .error "Invalid country name"

/- ## Concrete instances used by the theorems -/

instance {ε α : Type} [DecidableEq ε] [DecidableEq α] : DecidableEq (Except ε α)
  | .error e, .error f =>
    if h : e = f then .isTrue (by rw [h]) else .isFalse (by intro k; cases k; exact h rfl)
  | .error _, .ok _ => .isFalse (by intro k; cases k)
  | .ok _, .error _ => .isFalse (by intro k; cases k)
  | .ok a, .ok b =>
    if h : a = b then .isTrue (by rw [h]) else .isFalse (by intro k; cases k; exact h rfl)

/-- The interpolation test's input file: two rows of one instrument at terms 1
and 3 with rates 0.5 and 0.7. -/
def c1File : DataFrame :=
  ⟨["name", "date", "code1", "term", "code2", "rate"],
   [["CADsCAD1dMid", "2024-12-10", "1", "1", "USD", "0.5"],
    ["CADsCAD1dMid", "2024-12-10", "1", "3", "USD", "0.7"]]⟩

/-- A file missing the `name` and `code2` columns. -/
def missingColsFile : DataFrame :=
  ⟨["date", "code1", "term", "rate"], [["2024-12-10", "1", "1", "0.5"]]⟩

/-- A file that only has a `rate` column, its one rate unparsable. -/
def rateOnlyFile : DataFrame := ⟨["rate"], [["invalid"]]⟩

/-- A schema-complete file whose one rate is unparsable. -/
def invalidRateFile : DataFrame :=
  ⟨["name", "date", "code1", "term", "code2", "rate"],
   [["CADsCAD1dMid", "2024-12-10", "1", "1", "USD", "invalid"]]⟩

/-- A schema-complete file with zero data rows. -/
def emptyRowsFile : DataFrame :=
  ⟨["name", "date", "code1", "term", "code2", "rate"], []⟩

/-- The tabular result the mocked store query returns. -/
def dfCol1 : DataFrame := ⟨["col1"], [["1"], ["2"], ["3"]]⟩

/-- A store instance whose calls all succeed, queries answering `dfCol1`. -/
def instOk : DBInstance := ⟨fun _ _ _ => .ok (), fun _ => .ok dfCol1⟩

/-- A store whose instance is available and healthy. -/
def dbOk : DB := ⟨.ok instOk⟩

/-- A store whose instance acquisition fails. -/
def dbDown : DB := ⟨.error "DB instance error"⟩

/-- A store instance whose calls all fail. -/
def instBroken : DBInstance :=
  ⟨fun _ _ _ => .error "save failed", fun _ => .error "Invalid SQL"⟩

/-- A store whose instance is available but erroring on use. -/
def dbBroken : DB := ⟨.ok instBroken⟩

/-- A filesystem on which no path exists and only `/static.yml` is readable. -/
def fsFallbackOnly : FileSystem :=
  ⟨fun _ => false, fun f => if f = "/static.yml" then some [("fallback", "config")] else none⟩

/-- A filesystem on which nothing exists and nothing is readable. -/
def fsEmpty : FileSystem := ⟨fun _ => false, fun _ => none⟩

/- ## Helper lemmas -/

/-- Row validation only ever fails with a value error. -/
theorem parseRowsAux_error (df : DataFrame) :
    ∀ (rows : List (List String)) (e : ProcError),
      parseRowsAux df rows = Except.error e → ∃ m, e = ProcError.valueError m := by
  intro rows
  induction rows with
  | nil => intro e h; simp [parseRowsAux] at h
  | cons r rs ih =>
    intro e h
    cases hp : parseRow df r with
    | none =>
      simp [parseRowsAux, hp] at h
      exact ⟨_, h.symm⟩
    | some rec =>
      cases hq : parseRowsAux df rs with
      | error e2 =>
        simp [parseRowsAux, hp, hq] at h
        obtain ⟨m, hm⟩ := ih e2 hq
        exact ⟨m, h ▸ hm⟩
      | ok recs => simp [parseRowsAux, hp, hq] at h

/-- When every row validates, row validation succeeds and keeps the row
count. -/
theorem parseRowsAux_ok_of_parses (df : DataFrame) :
    ∀ rows : List (List String), (∀ r ∈ rows, (parseRow df r).isSome = true) →
      ∃ recs, parseRowsAux df rows = Except.ok recs ∧ recs.length = rows.length := by
  intro rows
  induction rows with
  | nil => intro _; exact ⟨[], rfl, rfl⟩
  | cons r rs ih =>
    intro hall
    have hr := hall r (List.mem_cons_self r rs)
    cases hp : parseRow df r with
    | none => rw [hp] at hr; simp at hr
    | some rec =>
      obtain ⟨recs, hq, hl⟩ := ih (fun x hx => hall x (List.mem_cons_of_mem r hx))
      exact ⟨rec :: recs, by simp [parseRowsAux, hp, hq], by simp [hl]⟩

/-- When some row fails to validate, row validation fails with a value
error. -/
theorem parseRowsAux_error_of_bad_row (df : DataFrame) :
    ∀ rows : List (List String), (∃ r ∈ rows, parseRow df r = none) →
      ∃ m, parseRowsAux df rows = Except.error (ProcError.valueError m) := by
  intro rows
  induction rows with
  | nil => rintro ⟨r, hr, _⟩; cases hr
  | cons r rs ih =>
    rintro ⟨x, hx, hnone⟩
    cases hp : parseRow df r with
    | none =>
      exact ⟨"could not convert string to float", by simp [parseRowsAux, hp]⟩
    | some rec =>
      rcases List.mem_cons.mp hx with h1 | h2
      · subst h1; rw [hnone] at hp; cases hp
      · obtain ⟨m, hm⟩ := ih ⟨x, h2, hnone⟩
        exact ⟨m, by simp [parseRowsAux, hp, hm]⟩

/-- A row whose rate cell is not coercible never validates. -/
theorem parseRow_none_of_rate (df : DataFrame) (row : List String)
    (h : rateCoercible df row = false) : parseRow df row = none := by
  unfold rateCoercible at h
  cases hr : (df.getValue row "rate").bind parseDecimal with
  | none =>
    cases h1 : df.getValue row "name" <;>
      cases h2 : (df.getValue row "term").bind parseIntStr <;>
        simp [parseRow, h1, h2, hr]
  | some q => rw [hr] at h; simp at h

/-- Grouping keeps at least one instrument name for a non-empty record
list. -/
theorem uniqueNames_ne_nil : ∀ recs : List RawRecord, recs ≠ [] → uniqueNames recs ≠ [] := by
  intro recs h
  cases recs with
  | nil => exact absurd rfl h
  | cons r rs =>
    simp only [uniqueNames]
    split
    · next hmem => intro hnil; rw [hnil] at hmem; cases hmem
    · simp

/- ## Claim theorems -/

/-- C1: processing a file holding, for one instrument, the rows (term=1,
rate=0.5) and (term=3, rate=0.7) and requesting term=2 yields rate=0.6, the
linear interpolation between the two bracketing known terms; the two known
terms keep their given rates. -/
theorem process_interpolates_midpoint :
    processedRate c1File "CADsCAD1dMid" 2 = some ((6 : ℚ)/10) ∧
    processedRate c1File "CADsCAD1dMid" 1 = some ((5 : ℚ)/10) ∧
    processedRate c1File "CADsCAD1dMid" 3 = some ((7 : ℚ)/10) := by
  have h05 : parseDecimal "0.5" = some ((1:ℚ)/2) := by
    simp +decide only [parseDecimal, show ("0.5").data = ['0','.','5'] from rfl,
      parseUnsigned, splitDot, parseNatDigits, parseFracDigits, digitVal]
    simp
    all_goals norm_num
  have h07 : parseDecimal "0.7" = some ((7:ℚ)/10) := by
    simp +decide only [parseDecimal, show ("0.7").data = ['0','.','7'] from rfl,
      parseUnsigned, splitDot, parseNatDigits, parseFracDigits, digitVal]
    simp
  have ht1 : parseIntStr "1" = some 1 := by
    simp +decide only [parseIntStr, show ("1").data = ['1'] from rfl, parseNatDigits, digitVal]
  have ht3 : parseIntStr "3" = some 3 := by
    simp +decide only [parseIntStr, show ("3").data = ['3'] from rfl, parseNatDigits, digitVal]
  have hrow1 : parseRow c1File ["CADsCAD1dMid", "2024-12-10", "1", "1", "USD", "0.5"]
      = some ⟨"CADsCAD1dMid", 1, (1:ℚ)/2⟩ := by
    simp [parseRow, DataFrame.getValue, colIndex, c1File, ht1, h05]
  have hrow2 : parseRow c1File ["CADsCAD1dMid", "2024-12-10", "1", "3", "USD", "0.7"]
      = some ⟨"CADsCAD1dMid", 3, (7:ℚ)/10⟩ := by
    simp [parseRow, DataFrame.getValue, colIndex, c1File, ht3, h07]
  have hrows : parseRowsAux c1File c1File.rows
      = .ok [⟨"CADsCAD1dMid", 1, (1:ℚ)/2⟩, ⟨"CADsCAD1dMid", 3, (7:ℚ)/10⟩] := by
    simp only [show c1File.rows = [["CADsCAD1dMid", "2024-12-10", "1", "1", "USD", "0.5"],
      ["CADsCAD1dMid", "2024-12-10", "1", "3", "USD", "0.7"]] from rfl,
      parseRowsAux, hrow1, hrow2]
  have hproc : process_reference_data c1File
      = .ok [("CADsCAD1dMid", [((1:Int), (1:ℚ)/2), ((2:Int), (3:ℚ)/5), ((3:Int), (7:ℚ)/10)])] := by
    simp only [process_reference_data, hrows,
      show hasRequiredColumns c1File = true from by decide]
    simp [processRecords, uniqueNames, recordsFor, sortByTerm, insertByTerm,
      interpPoints, segmentPoints, List.range_succ]
    norm_num
  refine ⟨?_, ?_, ?_⟩ <;>
    · simp only [processedRate, hproc, seriesRate]
      simp [lookupSeries, lookupRate]
      all_goals norm_num

/-- C2: a file lacking a required column fails with the schema error "Missing
required columns", and processing yields a schema error only in that case. -/
theorem process_schema_validation (df : DataFrame) :
    (hasRequiredColumns df = false →
      process_reference_data df
        = Except.error (ProcError.schemaError "Missing required columns")) ∧
    (hasRequiredColumns df = true →
      ∀ m, process_reference_data df ≠ Except.error (ProcError.schemaError m)) := by
  constructor
  · intro h
    simp [process_reference_data, h]
  · intro h m hEq
    simp only [process_reference_data, h, if_true] at hEq
    cases hq : parseRowsAux df df.rows with
    | error e =>
      rw [hq] at hEq
      obtain ⟨m2, hm2⟩ := parseRowsAux_error df df.rows e hq
      subst hm2
      simp at hEq
    | ok recs =>
      rw [hq] at hEq
      simp at hEq

/-- C2 witness: the missing-column file from the test fails with exactly the
schema error, and the complete-header empty file passes schema validation. -/
theorem process_schema_validation_witness :
    hasRequiredColumns missingColsFile = false ∧
    process_reference_data missingColsFile
      = Except.error (ProcError.schemaError "Missing required columns") ∧
    hasRequiredColumns emptyRowsFile = true ∧
    process_reference_data emptyRowsFile
      ≠ Except.error (ProcError.schemaError "Missing required columns") :=
  ⟨by decide, (process_schema_validation missingColsFile).1 (by decide),
   by decide,
   (process_schema_validation emptyRowsFile).2 (by decide) "Missing required columns"⟩

/-- C4: a file with the required header columns and zero data rows processes to
the empty result, raising no error. -/
theorem process_empty_file (df : DataFrame)
    (hcols : hasRequiredColumns df = true) (hrows : df.rows = []) :
    process_reference_data df = Except.ok [] := by
  simp [process_reference_data, hcols, hrows, parseRowsAux, processRecords, uniqueNames]

/-- C4 witness: the schema-complete zero-row file processes to the empty
result. -/
theorem process_empty_file_witness :
    process_reference_data emptyRowsFile = Except.ok [] :=
  process_empty_file emptyRowsFile (by decide) rfl

/-- C5: a schema-complete file whose rows all validate (name present, integer
term, numeric rate) and which has at least one data row processes to a
non-empty result. -/
theorem process_nonempty_result (df : DataFrame)
    (hcols : hasRequiredColumns df = true) (hne : df.rows ≠ [])
    (hparse : ∀ row ∈ df.rows, (parseRow df row).isSome = true) :
    ∃ res, process_reference_data df = Except.ok res ∧ res ≠ [] := by
  obtain ⟨recs, hq, hlen⟩ := parseRowsAux_ok_of_parses df df.rows hparse
  refine ⟨processRecords recs, by simp [process_reference_data, hcols, hq], ?_⟩
  have hrecs : recs ≠ [] := by
    intro h
    rw [h] at hlen
    exact hne (List.eq_nil_of_length_eq_zero hlen.symm)
  simp only [processRecords]
  intro hmapnil
  exact uniqueNames_ne_nil recs hrecs (List.map_eq_nil_iff.mp hmapnil)

/-- C5 witness: the two-row interpolation file processes to a non-empty
result. -/
theorem process_nonempty_result_witness :
    ∃ res, process_reference_data c1File = Except.ok res ∧ res ≠ [] :=
  process_nonempty_result c1File (by decide) (by decide) (by decide)

/-- A filesystem whose one existing path is `/dummy/path`, with a config file
under it. -/
def fsDummy : FileSystem :=
  ⟨fun p => p == "/dummy/path",
   fun f => if f = "/dummy/path/static.yml" then some [("key", "value")] else none⟩

/-- C3 counterexample: a file that contains a row with a non-coercible rate but
also lacks required columns fails with the schema error, not a value error. -/
theorem process_invalid_rate_counterexample :
    (∃ row ∈ rateOnlyFile.rows, rateCoercible rateOnlyFile row = false) ∧
    (∀ m, process_reference_data rateOnlyFile
      ≠ Except.error (ProcError.valueError m)) ∧
    process_reference_data rateOnlyFile
      = Except.error (ProcError.schemaError "Missing required columns") := by
  refine ⟨⟨["invalid"], by decide, by decide⟩, ?_, by decide⟩
  intro m h
  rw [show process_reference_data rateOnlyFile
    = Except.error (ProcError.schemaError "Missing required columns") from by decide] at h
  simp at h

/-- C3 amended: a schema-complete file containing at least one row whose rate
is not coercible to a number fails with a value error (and hence yields no
result for any row). -/
theorem process_invalid_rate (df : DataFrame)
    (hcols : hasRequiredColumns df = true)
    (hbad : ∃ row ∈ df.rows, rateCoercible df row = false) :
    ∃ m, process_reference_data df = Except.error (ProcError.valueError m) := by
  obtain ⟨row, hmem, hrc⟩ := hbad
  obtain ⟨m, hm⟩ := parseRowsAux_error_of_bad_row df df.rows
    ⟨row, hmem, parseRow_none_of_rate df row hrc⟩
  exact ⟨m, by simp [process_reference_data, hcols, hm]⟩

/-- C3 witness: the schema-complete file whose rate reads "invalid" fails with
a value error. -/
theorem process_invalid_rate_witness :
    ∃ m, process_reference_data invalidRateFile
      = Except.error (ProcError.valueError m) :=
  process_invalid_rate invalidRateFile (by decide)
    ⟨["CADsCAD1dMid", "2024-12-10", "1", "1", "USD", "invalid"], by decide, by decide⟩

/-- C6: saving an empty dataframe is a silent no-op — no store call is made and
no error is raised, whatever the state of the store. -/
theorem save_empty_dataframe_noop (db : DB) (df : DataFrame) (table mode : String)
    (h : df.isEmpty = true) :
    SaveData.save db df table mode = (Except.ok (), []) := by
  simp [SaveData.save, h]

/-- C6 witness: saving the empty dataframe is a no-op even on a store whose
instance acquisition fails. -/
theorem save_empty_dataframe_noop_witness :
    SaveData.save dbDown ⟨[], []⟩ "empty_table" "append" = (Except.ok (), []) :=
  save_empty_dataframe_noop dbDown ⟨[], []⟩ "empty_table" "append" rfl

/-- C7 counterexample: with the fallback `/static.yml` readable, a call with a
non-existing path argument succeeds on the fallback rather than failing with
`FileNotFoundError`. -/
theorem get_config_nonexisting_path_counterexample :
    fsFallbackOnly.pathExists "/nonexistent/path" = false ∧
    get_config fsFallbackOnly (some "/nonexistent/path")
      ≠ Except.error "FileNotFoundError" ∧
    get_config fsFallbackOnly (some "/nonexistent/path")
      = Except.ok [("fallback", "config")] := by decide

/-- C7 amended: the config file resolves to `<path>/static.yml` when the path
argument is given and exists and to `/static.yml` otherwise; when the resolved
file does not exist the loader fails with `FileNotFoundError` — in particular a
call with a non-existing path argument fails that way whenever the fallback
`/static.yml` does not exist either. -/
theorem get_config_resolution (fs : FileSystem) (p : String) (path : Option String) :
    (fs.pathExists p = true → resolveConfigPath fs (some p) = p ++ "/static.yml") ∧
    (fs.pathExists p = false → resolveConfigPath fs (some p) = "/static.yml") ∧
    resolveConfigPath fs none = "/static.yml" ∧
    (fs.files (resolveConfigPath fs path) = none →
      get_config fs path = Except.error "FileNotFoundError") ∧
    (fs.pathExists p = false → fs.files "/static.yml" = none →
      get_config fs (some p) = Except.error "FileNotFoundError") := by
  refine ⟨fun h => by simp [resolveConfigPath, h],
    fun h => by simp [resolveConfigPath, h], rfl,
    fun h => by simp [get_config, h], fun h1 h2 => ?_⟩
  simp [get_config, resolveConfigPath, h1, h2]

/-- C7 witness: an existing path resolves below itself; on a bare filesystem a
non-existing path argument fails with `FileNotFoundError`. -/
theorem get_config_resolution_witness :
    resolveConfigPath fsDummy (some "/dummy/path") = "/dummy/path/static.yml" ∧
    get_config fsEmpty (some "/nonexistent/path")
      = Except.error "FileNotFoundError" :=
  ⟨(get_config_resolution fsDummy "/dummy/path" none).1 (by decide),
   (get_config_resolution fsEmpty "/nonexistent/path" (some "/nonexistent/path")).2.2.2.2
     rfl rfl⟩

/-- C8: the model entry point fails with "Invalid country name" for every
unrecognized country, and with "Invalid date format" for every recognized
country paired with an unparsable date string. -/
theorem run_model_validation (country dateStr : String) :
    (validCountries.contains country = false →
      run_model country dateStr = Except.error "Invalid country name") ∧
    (validCountries.contains country = true → parseDateStr dateStr = none →
      run_model country dateStr = Except.error "Invalid date format") := by
  constructor
  · intro h
    simp only [run_model, h]
    simp
  · intro h hd
    simp only [run_model, h, hd]
    simp

/-- C8 witness: the two test calls — an invalid country with a well-formed
date, and Canada with an unparsable date. -/
theorem run_model_validation_witness :
    run_model "InvalidCountry" "2024-12-10" = Except.error "Invalid country name" ∧
    run_model "Canada" "invalid-date" = Except.error "Invalid date format" :=
  ⟨(run_model_validation "InvalidCountry" "2024-12-10").1 (by decide),
   (run_model_validation "Canada" "invalid-date").2 (by decide) (by decide)⟩

/-- C9: store errors propagate to the caller unchanged — whether instance
acquisition fails, or the acquired instance's save or query call fails. -/
theorem store_errors_propagate (db : DB) (df : DataFrame) (table mode sql : String)
    (e : String) :
    (db.get_instance = Except.error e → df.isEmpty = false →
      (SaveData.save db df table mode).1 = Except.error e ∧
      (SaveData.load db sql).1 = Except.error e) ∧
    (∀ inst : DBInstance, db.get_instance = Except.ok inst →
      (df.isEmpty = false → inst.save_dataframe df table mode = Except.error e →
        (SaveData.save db df table mode).1 = Except.error e) ∧
      (inst.query sql = Except.error e →
        (SaveData.load db sql).1 = Except.error e)) := by
  refine ⟨fun hi hne => ⟨by simp [SaveData.save, hi, hne], by simp [SaveData.load, hi]⟩,
    fun inst hi => ⟨fun hne hs => by simp [SaveData.save, hi, hne, hs],
      fun hq => by simp [SaveData.load, hi, hq]⟩⟩

/-- C9 witness: the test scenarios — instance acquisition failure on save and
load, a failing save call, and an invalid query. -/
theorem store_errors_propagate_witness :
    (SaveData.save dbDown dfCol1 "test_table" "append").1
      = Except.error "DB instance error" ∧
    (SaveData.load dbDown "SELECT * FROM test_table").1
      = Except.error "DB instance error" ∧
    (SaveData.save dbBroken dfCol1 "test_table" "append").1
      = Except.error "save failed" ∧
    (SaveData.load dbBroken "INVALID QUERY").1 = Except.error "Invalid SQL" := by
  have h1 := (store_errors_propagate dbDown dfCol1 "test_table" "append"
    "SELECT * FROM test_table" "DB instance error").1 rfl rfl
  have h2 := (store_errors_propagate dbBroken dfCol1 "test_table" "append"
    "INVALID QUERY" "save failed").2 instBroken rfl
  have h3 := (store_errors_propagate dbBroken dfCol1 "test_table" "append"
    "INVALID QUERY" "Invalid SQL").2 instBroken rfl
  exact ⟨h1.1, h1.2, h2.1 rfl rfl, h3.2 rfl⟩

/-- C10: the load operation passes the SQL text to the store's `query` exactly
once and returns the query's tabular result unchanged. -/
theorem load_passthrough (db : DB) (inst : DBInstance) (sql : String)
    (h : db.get_instance = Except.ok inst) :
    SaveData.load db sql = (inst.query sql, [StoreCall.query sql]) := by
  simp [SaveData.load, h]

/-- C10 witness: loading against the healthy mocked store issues one query with
the given SQL text and returns the store's dataframe unchanged. -/
theorem load_passthrough_witness :
    SaveData.load dbOk "SELECT * FROM test_table"
      = (Except.ok dfCol1, [StoreCall.query "SELECT * FROM test_table"]) := by
  have h := load_passthrough dbOk instOk "SELECT * FROM test_table" rfl
  exact h
